import Mathlib

/-!
Verification of the offline-first task sync engine: a shallow embedding of
the client sync service (syncService.ts), the server batch route
(routes/sync.ts) and the task CRUD service (taskService.ts), with theorems
settling the spec claims about retry/dead-letter handling, conflict
resolution, checksum integrity, batch validation and queue ordering.

Conventions of the embedding:
- timestamps (Date values / ISO strings) are Nat;
- machine 32-bit words are Nat reduced mod 2^32;
- JSON-serialisable partial task payloads are records of Option fields,
  where none models an absent key;
- uuidv4() is modelled by a per-state counter (uuidString nextId): claims
  never depend on the value of a generated id;
- SQL tables are Lean lists of rows; UPDATE ... WHERE is List.map with a
  condition, DELETE ... WHERE is List.filter;
- JavaScript truthiness on strings (falsy iff empty) is modelled
  explicitly wherever the source relies on it.
-/

namespace Backend

/-! ### SHA-256 over Nat arithmetic (crypto.createHash('sha256')) -/

/-- Reduce to a 32-bit word. -/
def w32 (n : Nat) : Nat := n % 4294967296

/-- 32-bit addition. -/
def add32 (a b : Nat) : Nat := w32 (a + b)

/-- 32-bit right rotation of a word already reduced mod 2^32. -/
def rotr32 (n k : Nat) : Nat := w32 ((n >>> k) ||| (n <<< (32 - k)))

/-- 32-bit bitwise complement of a word already reduced mod 2^32. -/
def not32 (n : Nat) : Nat := n ^^^ 4294967295

/-- SHA-256 big sigma 0. -/
def bsig0 (x : Nat) : Nat := (rotr32 x 2) ^^^ (rotr32 x 13) ^^^ (rotr32 x 22)

/-- SHA-256 big sigma 1. -/
def bsig1 (x : Nat) : Nat := (rotr32 x 6) ^^^ (rotr32 x 11) ^^^ (rotr32 x 25)

/-- SHA-256 small sigma 0. -/
def ssig0 (x : Nat) : Nat := (rotr32 x 7) ^^^ (rotr32 x 18) ^^^ (x >>> 3)

/-- SHA-256 small sigma 1. -/
def ssig1 (x : Nat) : Nat := (rotr32 x 17) ^^^ (rotr32 x 19) ^^^ (x >>> 10)

/-- SHA-256 choice function. -/
def chF (x y z : Nat) : Nat := (x &&& y) ^^^ ((not32 x) &&& z)

/-- SHA-256 majority function. -/
def majF (x y z : Nat) : Nat := (x &&& y) ^^^ (x &&& z) ^^^ (y &&& z)

/-- The 64 SHA-256 round constants of FIPS 180-4, in decimal. -/
def sha256K : List Nat :=
  [1116352408, 1899447441, 3049323471, 3921009573, 961987163,
   1508970993, 2453635748, 2870763221, 3624381080, 310598401,
   607225278, 1426881987, 1925078388, 2162078206, 2614888103,
   3248222580, 3835390401, 4022224774, 264347078, 604807628,
   770255983, 1249150122, 1555081692, 1996064986, 2554220882,
   2821834349, 2952996808, 3210313671, 3336571891, 3584528711,
   113926993, 338241895, 666307205, 773529912, 1294757372,
   1396182291, 1695183700, 1986661051, 2177026350, 2456956037,
   2730485921, 2820302411, 3259730800, 3345764771, 3516065817,
   3600352804, 4094571909, 275423344, 430227734, 506948616,
   659060556, 883997877, 958139571, 1322822218, 1537002063,
   1747873779, 1955562222, 2024104815, 2227730452, 2361852424,
   2428436474, 2756734187, 3204031479, 3329325298]

/-- The SHA-256 initial hash state of FIPS 180-4, in decimal. -/
def sha256H0 : List Nat :=
  [1779033703, 3144134277, 1013904242, 2773480762, 1359893119,
   2600822924, 528734635, 1541459225]

/-- Group a byte list into big-endian 32-bit words. -/
def toWords : List Nat → List Nat
  | b0 :: b1 :: b2 :: b3 :: rest => (((b0 * 256 + b1) * 256 + b2) * 256 + b3) :: toWords rest
  | _ => []

/-- Extend a 16-word block schedule by the given number of extra words. -/
def extendSchedule : Nat → List Nat → List Nat
  | 0, acc => acc
  | n + 1, acc =>
      let i := acc.length
      let word := add32 (add32 (ssig1 (acc.getD (i - 2) 0)) (acc.getD (i - 7) 0))
                        (add32 (ssig0 (acc.getD (i - 15) 0)) (acc.getD (i - 16) 0))
      extendSchedule n (acc ++ [word])

/-- The 64 SHA-256 compression rounds, folding round constants and schedule. -/
def rounds : List Nat → List Nat → List Nat → List Nat
  | [], _, st => st
  | _, [], st => st
  | k :: ks, w :: ws, [a, b, c, d, e, f, g, hh] =>
      let t1 := add32 hh (add32 (bsig1 e) (add32 (chF e f g) (add32 k w)))
      let t2 := add32 (bsig0 a) (majF a b c)
      rounds ks ws [add32 t1 t2, a, b, c, add32 d t1, e, f, g]
  | _, _, st => st

/-- Compress one 64-byte block into the running hash state. -/
def compressBlock (h : List Nat) (block : List Nat) : List Nat :=
  let ws := extendSchedule 48 (toWords block)
  let st := rounds sha256K ws h
  List.zipWith add32 h st

/-- Big-endian byte rendering of a value into the given number of bytes. -/
def beBytes : Nat → Nat → List Nat
  | 0, _ => []
  | n + 1, v => beBytes n (v / 256) ++ [v % 256]

/-- SHA-256 padding: 0x80, zeros to 56 mod 64, then the 64-bit bit length. -/
def padMessage (msg : List Nat) : List Nat :=
  let ml := msg.length
  let zeros := (120 - ((ml + 1) % 64)) % 64
  msg ++ [128] ++ List.replicate zeros 0 ++ beBytes 8 (ml * 8)

/-- Split a byte list into 64-byte chunks (fuel-driven for kernel reduction). -/
def chunks64 : Nat → List Nat → List (List Nat)
  | 0, _ => []
  | n + 1, l => if l.isEmpty then [] else l.take 64 :: chunks64 n (l.drop 64)

/-- SHA-256 of a byte list, as the list of 8 hash words. -/
def sha256Words (msg : List Nat) : List Nat :=
  let padded := padMessage msg
  (chunks64 (padded.length / 64) padded).foldl compressBlock sha256H0

/-- Lower-case hex digit for a value below 16. -/
def hexDigit (n : Nat) : Char := if n < 10 then Char.ofNat (48 + n) else Char.ofNat (87 + n)

/-- Lower-case 8-digit hex rendering of a 32-bit word. -/
def wordHex (w : Nat) : String :=
  String.mk [hexDigit ((w >>> 28) &&& 15), hexDigit ((w >>> 24) &&& 15),
             hexDigit ((w >>> 20) &&& 15), hexDigit ((w >>> 16) &&& 15),
             hexDigit ((w >>> 12) &&& 15), hexDigit ((w >>> 8) &&& 15),
             hexDigit ((w >>> 4) &&& 15), hexDigit (w &&& 15)]

/-- UTF-8 encoding of one character, as bytes. -/
def utf8Char (c : Char) : List Nat :=
  let n := c.toNat
  if n < 128 then [n]
  else if n < 2048 then [192 ||| (n >>> 6), 128 ||| (n &&& 63)]
  else if n < 65536 then [224 ||| (n >>> 12), 128 ||| ((n >>> 6) &&& 63), 128 ||| (n &&& 63)]
  else [240 ||| (n >>> 18), 128 ||| ((n >>> 12) &&& 63), 128 ||| ((n >>> 6) &&& 63), 128 ||| (n &&& 63)]

/-- UTF-8 encoding of a string, as bytes. -/
def utf8Bytes (s : String) : List Nat :=
  s.data.foldr (fun c acc => utf8Char c ++ acc) []

/-- Hex-rendered SHA-256 digest of a string: the model of
crypto.createHash('sha256').update(s).digest('hex'). Checked against the
FIPS 180 test vectors for the empty string, 'abc', the 448-bit two-block
message and the quick-brown-fox message. -/
def sha256hex (s : String) : String :=
  String.join ((sha256Words (utf8Bytes s)).map wordHex)

/-! ### Strings: Array.prototype.join and SQLite TEXT ordering -/

/-- Model of Array.prototype.join(sep): empty for the empty list, no
trailing separator otherwise. -/
def joinSep (sep : String) : List String → String
  | [] => ""
  | [s] => s
  | s :: rest => s ++ sep ++ joinSep sep rest

/-- Codepoint-lexicographic comparison of character lists. On UTF-8 data
this coincides with the byte-wise (memcmp) ordering SQLite applies to TEXT
columns. -/
def charListLt : List Char → List Char → Bool
  | [], [] => false
  | [], _ :: _ => true
  | _ :: _, [] => false
  | c :: cs, d :: ds =>
      if c.toNat < d.toNat then true
      else if d.toNat < c.toNat then false
      else charListLt cs ds

/-- SQLite TEXT ordering on strings. -/
def strLt (a b : String) : Bool := charListLt a.data b.data

/-! ### JavaScript truthiness helpers for strings -/

/-- Model of the JS idiom (x || undefined) on an optional string: an empty
string is falsy and collapses to undefined. -/
def jsOrNoneStr (o : Option String) : Option String :=
  match o with
  | some s => if s = "" then none else some s
  | none => none

/-- Model of the JS idiom (x || dflt) on an optional string: undefined and
the empty string both fall back to the default. -/
def jsOrStr (o : Option String) (dflt : String) : String :=
  match o with
  | some s => if s = "" then dflt else s
  | none => dflt

/-! ### Data model (src/types): Task, partial task payloads, queue rows -/

/-- A task row: the Task interface and the tasks table. Timestamps are Nat;
server_id and last_synced_at are optional. -/
structure Task where
  id : String
  title : String
  description : String
  completed : Bool
  created_at : Nat
  updated_at : Nat
  is_deleted : Bool
  sync_status : String
  server_id : Option String
  last_synced_at : Option Nat
deriving DecidableEq, Repr

/-- A JSON task payload (TypeScript Partial of Task): every field optional,
none modelling an absent key. This is the shape of a mutation snapshot. -/
structure TaskData where
  id : Option String
  title : Option String
  description : Option String
  completed : Option Bool
  created_at : Option Nat
  updated_at : Option Nat
  is_deleted : Option Bool
  sync_status : Option String
  server_id : Option String
  last_synced_at : Option Nat
deriving DecidableEq, Repr

/-- The payload with every key absent. -/
def TaskData.empty : TaskData :=
  ⟨none, none, none, none, none, none, none, none, none, none⟩

/-- View a full task as a payload with every key present. -/
def Task.toData (t : Task) : TaskData :=
  ⟨some t.id, some t.title, some t.description, some t.completed, some t.created_at,
   some t.updated_at, some t.is_deleted, some t.sync_status, t.server_id, t.last_synced_at⟩

/-- Model of JSON.stringify on a task payload: the keys present, in Task
field order, rendered as a JSON object. Only its injectivity-relevant shape
matters to the theorems; timestamps render as their decimal string. -/
def TaskData.stringify (d : TaskData) : String :=
  let q := fun (s : String) => "\"" ++ s ++ "\""
  let strF := fun (name : String) (o : Option String) =>
    match o with | some v => [q name ++ ":" ++ q v] | none => []
  let boolF := fun (name : String) (o : Option Bool) =>
    match o with | some b => [q name ++ ":" ++ (if b then "true" else "false")] | none => []
  let natF := fun (name : String) (o : Option Nat) =>
    match o with | some n => [q name ++ ":" ++ q (toString n)] | none => []
  "\x7b" ++ joinSep ","
    (strF "id" d.id ++ strF "title" d.title ++ strF "description" d.description ++
     boolF "completed" d.completed ++ natF "created_at" d.created_at ++
     natF "updated_at" d.updated_at ++ boolF "is_deleted" d.is_deleted ++
     strF "sync_status" d.sync_status ++ strF "server_id" d.server_id ++
     natF "last_synced_at" d.last_synced_at) ++ "\x7d"

/-- A sync_queue row / SyncQueueItem: one pending mutation log entry. -/
structure SyncQueueItem where
  id : String
  task_id : String
  operation : String
  data : TaskData
  created_at : Nat
  retry_count : Nat
  error_message : Option String
deriving DecidableEq, Repr

/-- A dead_letter_queue row: a permanently failed mutation, append-only. -/
structure DeadLetterEntry where
  id : String
  original_queue_id : String
  task_id : String
  operation : String
  data : String
  error_message : String
  retry_count : Nat
  failed_at : Nat
deriving DecidableEq, Repr

/-- Model of uuidv4(): the only property the code relies on is freshness,
supplied by a per-state counter. -/
def uuidString (n : Nat) : String := "uuid-" ++ toString n

/-! ### Checksums (calculateChecksum in syncService.ts and routes/sync.ts) -/

/-- The per-item fragment of the checksum pre-image:
id, operation and the JSON of the data, dash-separated. -/
def checksumItemString (item : SyncQueueItem) : String :=
  item.id ++ "-" ++ item.operation ++ "-" ++ TaskData.stringify item.data

/-- The checksum pre-image: per-item fragments joined with the fixed
separator. -/
def checksumDataString (items : List SyncQueueItem) : String :=
  joinSep "|" (items.map checksumItemString)

/-- Client-side calculateChecksum (syncService.ts): SHA-256 hex digest of
the joined item fragments. -/
def calculateChecksum (items : List SyncQueueItem) : String :=
  sha256hex (checksumDataString items)

/-- Server-side calculateChecksum (routes/sync.ts): the identical
computation, written on the receiving side. -/
def calculateChecksumRoute (items : List SyncQueueItem) : String :=
  sha256hex (joinSep "|"
    (items.map (fun item => item.id ++ "-" ++ item.operation ++ "-" ++ TaskData.stringify item.data)))

/-! ### Server state and TaskService (taskService.ts) -/

/-- The server's database: tasks table, sync_queue table, and the uuid
counter. -/
structure ServerState where
  tasks : List Task
  sync_queue : List SyncQueueItem
  nextId : Nat
deriving DecidableEq, Repr

namespace TaskService

/-- TaskService.addToSyncQueue: INSERT a queue row with retry_count 0. -/
def addToSyncQueue (now : Nat) (taskId operation : String) (data : TaskData)
    (st : ServerState) : ServerState :=
  { st with
    sync_queue := st.sync_queue ++ [⟨uuidString st.nextId, taskId, operation, data, now, 0, none⟩],
    nextId := st.nextId + 1 }

/-- TaskService.mapRowToTask: row to Task, with the JS truthiness
normalisations (description || '', server_id || undefined). -/
def mapRowToTask (r : Task) : Task :=
  { r with server_id := jsOrNoneStr r.server_id }

/-- TaskService.createTask: build the task from the payload with JS
falsy-fallbacks, INSERT it, and enqueue a create mutation. -/
def createTask (now : Nat) (taskData : TaskData) (st : ServerState) : Task × ServerState :=
  let task : Task :=
    { id := uuidString st.nextId,
      title := taskData.title.getD "",
      description := taskData.description.getD "",
      completed := taskData.completed.getD false,
      created_at := now,
      updated_at := now,
      is_deleted := false,
      sync_status := "pending",
      server_id := jsOrNoneStr taskData.server_id,
      last_synced_at := taskData.last_synced_at }
  let st1 : ServerState := { st with tasks := st.tasks ++ [task], nextId := st.nextId + 1 }
  (task, addToSyncQueue now task.id "create" task.toData st1)

/-- TaskService.getTask: SELECT * FROM tasks WHERE id = ? AND is_deleted = 0,
mapped through mapRowToTask. -/
def getTask (id : String) (st : ServerState) : Option Task :=
  (st.tasks.find? (fun t => t.id == id && !t.is_deleted)).map mapRowToTask

/-- The object merge performed by TaskService.updateTask: spread of the
existing task, then the updates, then updated_at := now and
sync_status := 'pending'. -/
def mergeTask (existing : Task) (updates : TaskData) (now : Nat) : Task :=
  { id := updates.id.getD existing.id,
    title := updates.title.getD existing.title,
    description := updates.description.getD existing.description,
    completed := updates.completed.getD existing.completed,
    created_at := updates.created_at.getD existing.created_at,
    updated_at := now,
    is_deleted := updates.is_deleted.getD existing.is_deleted,
    sync_status := "pending",
    server_id := updates.server_id.or existing.server_id,
    last_synced_at := updates.last_synced_at.or existing.last_synced_at }

/-- TaskService.updateTask: look up the live row, merge the updates into it,
UPDATE the row's seven written columns WHERE id = ? AND is_deleted = 0,
enqueue an update mutation, and return the merged object. -/
def updateTask (now : Nat) (id : String) (updates : TaskData)
    (st : ServerState) : Option Task × ServerState :=
  match getTask id st with
  | none => (none, st)
  | some existing =>
      let merged := mergeTask existing updates now
      let st1 : ServerState :=
        { st with tasks := st.tasks.map (fun r =>
            if r.id == id && !r.is_deleted then
              { r with title := merged.title,
                       description := merged.description,
                       completed := merged.completed,
                       updated_at := merged.updated_at,
                       sync_status := merged.sync_status,
                       server_id := jsOrNoneStr merged.server_id,
                       last_synced_at := merged.last_synced_at }
            else r) }
      (some merged, addToSyncQueue now id "update" merged.toData st1)

/-- TaskService.deleteTask: soft delete. Returns false (no change) when no
live row exists; otherwise marks the row deleted, enqueues a delete
mutation carrying the pre-delete snapshot with is_deleted set, returns
true. -/
def deleteTask (now : Nat) (id : String) (st : ServerState) : Bool × ServerState :=
  match st.tasks.find? (fun t => t.id == id && !t.is_deleted) with
  | none => (false, st)
  | some existing =>
      let st1 : ServerState :=
        { st with tasks := st.tasks.map (fun r =>
            if r.id == id then
              { r with is_deleted := true, updated_at := now, sync_status := "pending" }
            else r) }
      let taskData := { (mapRowToTask existing).toData with
                        is_deleted := some true, updated_at := some now }
      (true, addToSyncQueue now id "delete" taskData st1)

end TaskService

/-! ### Server batch route (routes/sync.ts) -/

/-- One per-item outcome in the batch response. -/
structure ProcessedItem where
  client_id : String
  server_id : Option String
  status : String
  resolved_data : Option TaskData
  error : Option String
deriving DecidableEq, Repr

/-- Route helper handleBatchCreate: create from the payload, success with
the new server identity. -/
def handleBatchCreate (now : Nat) (item : SyncQueueItem) (st : ServerState) :
    ProcessedItem × ServerState :=
  let pr := TaskService.createTask now item.data st
  ({ client_id := item.task_id, server_id := some pr.1.id, status := "success",
     resolved_data := some pr.1.toData, error := none }, pr.2)

/-- Route helper handleBatchUpdate: absent entity degrades to create;
otherwise last-write-wins on updated_at, the server winning only when
strictly newer (a missing client timestamp compares like NaN: never
newer-than, so the client wins). -/
def handleBatchUpdate (now : Nat) (item : SyncQueueItem) (st : ServerState) :
    ProcessedItem × ServerState :=
  match TaskService.getTask item.task_id st with
  | none =>
      let pr := TaskService.createTask now item.data st
      ({ client_id := item.task_id, server_id := some pr.1.id, status := "success",
         resolved_data := some pr.1.toData, error := none }, pr.2)
  | some existingTask =>
      let serverWins :=
        match item.data.updated_at with
        | some clientTime => decide (clientTime < existingTask.updated_at)
        | none => false
      if serverWins then
        ({ client_id := item.task_id,
           server_id := some (jsOrStr existingTask.server_id existingTask.id),
           status := "success", resolved_data := some existingTask.toData, error := none }, st)
      else
        let pr := TaskService.updateTask now item.task_id item.data st
        let finalData := pr.1.getD existingTask
        ({ client_id := item.task_id,
           server_id := some (jsOrStr finalData.server_id finalData.id),
           status := "success", resolved_data := some finalData.toData, error := none }, pr.2)

/-- Route helper handleBatchDelete: idempotent soft delete; the deleteTask
result is discarded and the outcome is always success with the client's
payload flagged deleted. -/
def handleBatchDelete (now : Nat) (item : SyncQueueItem) (st : ServerState) :
    ProcessedItem × ServerState :=
  ({ client_id := item.task_id, server_id := some item.task_id, status := "success",
     resolved_data := some { item.data with is_deleted := some true }, error := none },
   (TaskService.deleteTask now item.task_id st).2)

/-- Dispatch of one batch item on its operation; an unrecognised operation
yields a per-item error outcome. -/
def processItem (now : Nat) (item : SyncQueueItem) (st : ServerState) :
    ProcessedItem × ServerState :=
  match item.operation with
  | "create" => handleBatchCreate now item st
  | "update" => handleBatchUpdate now item st
  | "delete" => handleBatchDelete now item st
  | op => ({ client_id := item.task_id, server_id := none, status := "error",
             resolved_data := none, error := some ("Unknown operation: " ++ op) }, st)

/-- Sequential processing of the batch items, threading the server state. -/
def processItems (now : Nat) : List SyncQueueItem → ServerState →
    List ProcessedItem × ServerState
  | [], st => ([], st)
  | item :: rest, st =>
      let pr := processItem now item st
      let rs := processItems now rest pr.2
      (pr.1 :: rs.1, rs.2)

/-- A POST /batch body: items (none models missing or non-array),
client_timestamp, optional checksum. -/
structure BatchRequest where
  items : Option (List SyncQueueItem)
  client_timestamp : Option Nat
  checksum : Option String
deriving DecidableEq, Repr

/-- The POST /batch response: a 400-class rejection or the processed
outcomes. -/
inductive BatchResponse where
  | badRequest (message : String)
  | ok (processed_items : List ProcessedItem)
deriving DecidableEq, Repr

/-- Observer: is the response a 400-class rejection? -/
def BatchResponse.isBadRequest : BatchResponse → Bool
  | .badRequest _ => true
  | .ok _ => false

/-- The POST /batch handler: validates items and client_timestamp, then —
only when a truthy (non-empty) checksum is present, per the JS
if (checksum) guard — recomputes and compares the checksum, rejecting the
whole request on mismatch before touching any item. -/
def postBatch (now : Nat) (req : BatchRequest) (st : ServerState) :
    BatchResponse × ServerState :=
  match req.items with
  | none => (.badRequest "Invalid batch request - items array is required", st)
  | some items =>
      if items.isEmpty then
        (.badRequest "Invalid batch request - items array is required", st)
      else if req.client_timestamp.isNone then
        (.badRequest "Client timestamp is required", st)
      else
        let proceed := fun (_ : Unit) =>
          let rs := processItems now items st
          (BatchResponse.ok rs.1, rs.2)
        match req.checksum with
        | some c =>
            if c = "" then proceed ()
            else if calculateChecksumRoute items = c then proceed ()
            else (.badRequest "Batch integrity check failed - checksum mismatch", st)
        | none => proceed ()

/-! ### Client state and SyncService (syncService.ts) -/

/-- The client's database: tasks, sync_queue, dead_letter_queue, and the
uuid counter. -/
structure ClientState where
  tasks : List Task
  sync_queue : List SyncQueueItem
  dead_letter : List DeadLetterEntry
  nextId : Nat
deriving DecidableEq, Repr

/-- One entry of SyncResult.errors. -/
structure SyncError where
  task_id : String
  operation : String
  error : String
  timestamp : Nat
deriving DecidableEq, Repr

/-- The result of one sync cycle. -/
structure SyncResult where
  success : Bool
  synced_items : Nat
  failed_items : Nat
  errors : List SyncError
deriving DecidableEq, Repr

/-- The body of a successful POST /batch response as the client reads it. -/
structure BatchSyncResponse where
  processed_items : List ProcessedItem
deriving DecidableEq, Repr

namespace SyncService

/-- SyncService.addToSyncQueue: INSERT a queue row with retry_count 0. -/
def addToSyncQueue (now : Nat) (taskId operation : String) (data : TaskData)
    (st : ClientState) : ClientState :=
  { st with
    sync_queue := st.sync_queue ++ [⟨uuidString st.nextId, taskId, operation, data, now, 0, none⟩],
    nextId := st.nextId + 1 }

/-- The ORDER BY task_id, created_at ASC comparison: SQLite TEXT order on
the owning task id, then numeric order on the creation timestamp. -/
def entryLE (a b : SyncQueueItem) : Bool :=
  strLt a.task_id b.task_id ||
    (a.task_id == b.task_id && decide (a.created_at ≤ b.created_at))

/-- Insert into a sorted list (model of the SQL sort). -/
def insSorted (le : SyncQueueItem → SyncQueueItem → Bool) (x : SyncQueueItem) :
    List SyncQueueItem → List SyncQueueItem
  | [] => [x]
  | y :: ys => if le x y then x :: y :: ys else y :: insSorted le x ys

/-- Sorting by insertion (model of the SQL ORDER BY; any sort satisfying
the ordering is a faithful model, the engine does not pin one down). -/
def sortBy (le : SyncQueueItem → SyncQueueItem → Bool) :
    List SyncQueueItem → List SyncQueueItem
  | [] => []
  | x :: xs => insSorted le x (sortBy le xs)

/-- SyncService.getSyncQueueItems:
SELECT * FROM sync_queue WHERE retry_count < 3 ORDER BY task_id, created_at ASC. -/
def getSyncQueueItems (st : ClientState) : List SyncQueueItem :=
  sortBy entryLE (st.sync_queue.filter (fun e => e.retry_count < 3))

/-- SyncService.createBatches inner loop: close the current chunk once it
has reached the batch size, then append the item. -/
def createBatchesGo (batchSize : Nat) : List SyncQueueItem →
    List (List SyncQueueItem) → List SyncQueueItem → List (List SyncQueueItem)
  | [], batches, current => if current.isEmpty then batches else batches ++ [current]
  | item :: rest, batches, current =>
      if batchSize ≤ current.length then
        createBatchesGo batchSize rest (batches ++ [current]) [item]
      else
        createBatchesGo batchSize rest batches (current ++ [item])

/-- SyncService.createBatches: partition the ordered items into chunks of
at most the batch size. -/
def createBatches (batchSize : Nat) (items : List SyncQueueItem) :
    List (List SyncQueueItem) :=
  createBatchesGo batchSize items [] []

/-- SyncService.updateSyncStatus: set the task's sync_status and
last_synced_at, set server_id only when the outcome carries a truthy one,
and — on 'synced' — DELETE every sync_queue row of that task_id. -/
def updateSyncStatus (now : Nat) (taskId : String) (status : String)
    (serverData : Option TaskData) (st : ClientState) : ClientState :=
  let sid :=
    match serverData with
    | some d => jsOrNoneStr d.server_id
    | none => none
  let st1 : ClientState :=
    { st with tasks := st.tasks.map (fun t =>
        if t.id == taskId then
          { t with sync_status := status, last_synced_at := some now,
                   server_id := match sid with | some s => some s | none => t.server_id }
        else t) }
  if status == "synced" then
    { st1 with sync_queue := st1.sync_queue.filter (fun q => !(q.task_id == taskId)) }
  else st1

/-- SyncService.moveToDeadLetterQueue: append the permanent-failure record,
capturing the original queue id, the snapshot JSON, the final error and the
entry's stored (pre-increment) retry count. -/
def moveToDeadLetterQueue (now : Nat) (item : SyncQueueItem) (errorMessage : String)
    (st : ClientState) : ClientState :=
  { st with
    dead_letter := st.dead_letter ++
      [⟨uuidString st.nextId, item.id, item.task_id, item.operation,
        TaskData.stringify item.data, errorMessage, item.retry_count, now⟩],
    nextId := st.nextId + 1 }

/-- SyncService.handleSyncError: increment the retry count; at the maximum
(3) move the entry to the dead-letter queue, mark the task failed and
delete the entry; below it, record the retry count and error on the entry
and mark the task error. -/
def handleSyncError (now : Nat) (item : SyncQueueItem) (errorMessage : String)
    (st : ClientState) : ClientState :=
  let retryCount := item.retry_count + 1
  if 3 ≤ retryCount then
    let st1 := moveToDeadLetterQueue now item errorMessage st
    let st2 : ClientState :=
      { st1 with tasks := st1.tasks.map (fun t =>
          if t.id == item.task_id then { t with sync_status := "failed" } else t) }
    { st2 with sync_queue := st2.sync_queue.filter (fun q => !(q.id == item.id)) }
  else
    let st1 : ClientState :=
      { st with sync_queue := st.sync_queue.map (fun q =>
          if q.id == item.id then
            { q with retry_count := retryCount, error_message := some errorMessage }
          else q) }
    { st1 with tasks := st1.tasks.map (fun t =>
        if t.id == item.task_id then { t with sync_status := "error" } else t) }

/-- SyncService.checkConnectivity: the health probe's transport outcome
collapsed to a boolean; every failure is 'unreachable', nothing escapes. -/
def checkConnectivity (probe : Except String Unit) : Bool :=
  match probe with
  | .ok _ => true
  | .error _ => false

/-- The first half of processBatch: mark every task of the batch
in-progress before transmission. -/
def markBatchInProgress (items : List SyncQueueItem) (st : ClientState) : ClientState :=
  items.foldl
    (fun s item =>
      { s with tasks := s.tasks.map (fun t =>
          if t.id == item.task_id then { t with sync_status := "in-progress" } else t) })
    st

/-- The accumulator of one sync cycle: counters, errors and client state. -/
structure SyncAcc where
  synced : Nat
  failed : Nat
  errors : List SyncError
  state : ClientState
deriving DecidableEq, Repr

/-- The error message of the JS crash on an outcome whose client_id matches
no batch item (the non-null assertion hands undefined to handleSyncError). -/
def undefinedItemError : String :=
  "Cannot read properties of undefined (reading 'retry_count')"

/-- Apply the per-item outcomes of one batch response in order: success
updates status and removes the entry; error feeds the retry handler; an
unmatched client_id throws, keeping the mutations already applied and
reporting the exception. -/
def applyOutcomes (now : Nat) (batch : List SyncQueueItem) :
    List ProcessedItem → SyncAcc → SyncAcc × Option String
  | [], acc => (acc, none)
  | p :: ps, acc =>
      if p.status == "success" then
        applyOutcomes now batch ps
          { acc with
            state := updateSyncStatus now p.client_id "synced" p.resolved_data acc.state,
            synced := acc.synced + 1 }
      else
        match batch.find? (fun item => item.task_id == p.client_id) with
        | some item =>
            let msg := jsOrStr p.error "Unknown sync error"
            applyOutcomes now batch ps
              { acc with
                state := handleSyncError now item msg acc.state,
                failed := acc.failed + 1,
                errors := acc.errors ++ [⟨p.client_id, "sync", msg, now⟩] }
        | none => (acc, some undefinedItemError)

/-- The whole-batch failure path: every item of the batch is handed to the
retry handler with the failure as cause. -/
def failBatch (now : Nat) (errMsg : String) (batch : List SyncQueueItem)
    (acc : SyncAcc) : SyncAcc :=
  batch.foldl
    (fun a item =>
      { a with state := handleSyncError now item errMsg a.state,
               failed := a.failed + 1,
               errors := a.errors ++ [⟨item.task_id, item.operation, errMsg, now⟩] })
    acc

/-- One batch of the cycle: mark in-progress, transmit, then either apply
the outcomes or fail the whole batch on a transport error or a thrown
exception. -/
def processOneBatch (now : Nat)
    (respond : List SyncQueueItem → Except String BatchSyncResponse)
    (batch : List SyncQueueItem) (acc : SyncAcc) : SyncAcc :=
  let acc1 : SyncAcc := { acc with state := markBatchInProgress batch acc.state }
  match respond batch with
  | .error msg => failBatch now msg batch acc1
  | .ok resp =>
      match applyOutcomes now batch resp.processed_items acc1 with
      | (acc2, none) => acc2
      | (acc2, some msg) => failBatch now msg batch acc2

/-- The sequential batch loop: a batch failure does not abort the rest. -/
def processBatches (now : Nat)
    (respond : List SyncQueueItem → Except String BatchSyncResponse) :
    List (List SyncQueueItem) → SyncAcc → SyncAcc
  | [], acc => acc
  | b :: bs, acc => processBatches now respond bs (processOneBatch now respond b acc)

/-- SyncService.sync: one full cycle. Probe connectivity — unreachable
returns failure with the single connectivity error and touches nothing.
Otherwise fetch the pending entries, batch them, process sequentially, and
succeed iff nothing failed. -/
def sync (probe : Except String Unit)
    (respond : List SyncQueueItem → Except String BatchSyncResponse)
    (now batchSize : Nat) (st : ClientState) : SyncResult × ClientState :=
  if !(checkConnectivity probe) then
    ({ success := false, synced_items := 0, failed_items := 0,
       errors := [⟨"", "connectivity", "Server unreachable", now⟩] }, st)
  else
    let queueItems := getSyncQueueItems st
    if queueItems.isEmpty then
      ({ success := true, synced_items := 0, failed_items := 0, errors := [] }, st)
    else
      let acc := processBatches now respond (createBatches batchSize queueItems)
        ⟨0, 0, [], st⟩
      ({ success := acc.failed == 0, synced_items := acc.synced,
         failed_items := acc.failed, errors := acc.errors }, acc.state)

end SyncService

/-! ### Helper lemmas -/

/-- A list whose members satisfying the predicate are all equal to a given
member finds exactly that member. -/
theorem find?_eq_some_of_unique {α : Type} (p : α → Bool) (l : List α) (a : α)
    (ha : a ∈ l) (hp : p a = true) (huniq : ∀ x ∈ l, p x = true → x = a) :
    l.find? p = some a := by
  induction l with
  | nil => cases ha
  | cons b t ih =>
    by_cases hb : p b = true
    · have hba : b = a := huniq b (List.mem_cons_self b t) hb
      rw [List.find?_cons_of_pos _ hb, hba]
    · have hab : a ∈ t := by
        rcases List.mem_cons.mp ha with h | h
        · subst h; exact absurd hp hb
        · exact h
      rw [List.find?_cons_of_neg _ (by simp [hb])]
      exact ih hab (fun x hx hpx => huniq x (List.mem_cons_of_mem _ hx) hpx)

/-! ### Claim C3: an unreachable remote aborts the cycle untouched -/

/-- Claim C3: when the connectivity probe reports the remote unreachable —
and any transport failure of the probe collapses to unreachable rather than
throwing — sync returns success = false, zero synced items and exactly the
one connectivity error, and the client state (in particular the sync queue)
is returned completely unchanged. -/
theorem claim_C3 (msg : String)
    (respond : List SyncQueueItem → Except String BatchSyncResponse)
    (now batchSize : Nat) (st : ClientState) :
    SyncService.sync (Except.error msg) respond now batchSize st =
      ({ success := false, synced_items := 0, failed_items := 0,
         errors := [⟨"", "connectivity", "Server unreachable", now⟩] }, st) ∧
    SyncService.checkConnectivity (Except.error msg) = false := by
  exact ⟨rfl, rfl⟩

/-! ### Claim C8: server-side delete is idempotent -/

/-- Claim C8: applying a delete item twice in a row (at-least-once
redelivery), the outcome is success with a deleted-flagged payload and no
error both times. -/
theorem claim_C8 (now1 now2 : Nat) (item : SyncQueueItem) (st : ServerState) :
    (handleBatchDelete now1 item st).1.status = "success" ∧
    (handleBatchDelete now1 item st).1.error = none ∧
    (handleBatchDelete now2 item (handleBatchDelete now1 item st).2).1.status = "success" ∧
    (handleBatchDelete now2 item (handleBatchDelete now1 item st).2).1.error = none ∧
    (∃ d, (handleBatchDelete now1 item st).1.resolved_data = some d ∧
          d.is_deleted = some true) ∧
    (∃ d, (handleBatchDelete now2 item (handleBatchDelete now1 item st).2).1.resolved_data
            = some d ∧ d.is_deleted = some true) := by
  exact ⟨rfl, rfl, rfl, rfl, ⟨_, rfl, rfl⟩, ⟨_, rfl, rfl⟩⟩

/-! ### Claim C10: delete of a never-created entity still reports success -/

/-- Claim C10: for a delete item whose task_id matches no server entity at
all, deleteTask returns false leaving the state unchanged, and
handleBatchDelete — ignoring that result — still reports success with
server_id equal to the client's task_id and a deleted-flagged payload. -/
theorem claim_C10 (now : Nat) (item : SyncQueueItem) (st : ServerState)
    (habs : ∀ t ∈ st.tasks, t.id ≠ item.task_id) :
    TaskService.deleteTask now item.task_id st = (false, st) ∧
    handleBatchDelete now item st =
      ({ client_id := item.task_id, server_id := some item.task_id, status := "success",
         resolved_data := some { item.data with is_deleted := some true }, error := none },
       st) := by
  have hfind : st.tasks.find? (fun t => t.id == item.task_id && !t.is_deleted) = none := by
    rw [List.find?_eq_none]
    intro t ht
    simp [habs t ht]
  refine ⟨?_, ?_⟩
  · simp [TaskService.deleteTask, hfind]
  · simp [handleBatchDelete, TaskService.deleteTask, hfind]

/-- Claim C10 witness: a concrete delete for an id absent from the server. -/
theorem claim_C10_witness :
    TaskService.deleteTask 60
      (⟨"q3", "t9", "delete", TaskData.empty, 0, 0, none⟩ : SyncQueueItem).task_id
      (⟨[⟨"t1", "hello", "", false, 0, 10, false, "pending", none, none⟩], [], 0⟩ : ServerState)
      = (false, ⟨[⟨"t1", "hello", "", false, 0, 10, false, "pending", none, none⟩], [], 0⟩) ∧
    handleBatchDelete 60 (⟨"q3", "t9", "delete", TaskData.empty, 0, 0, none⟩ : SyncQueueItem)
      (⟨[⟨"t1", "hello", "", false, 0, 10, false, "pending", none, none⟩], [], 0⟩ : ServerState)
      = ({ client_id := "t9", server_id := some "t9", status := "success",
           resolved_data := some { TaskData.empty with is_deleted := some true },
           error := none },
         ⟨[⟨"t1", "hello", "", false, 0, 10, false, "pending", none, none⟩], [], 0⟩) := by
  exact claim_C10 60 ⟨"q3", "t9", "delete", TaskData.empty, 0, 0, none⟩
    ⟨[⟨"t1", "hello", "", false, 0, 10, false, "pending", none, none⟩], [], 0⟩
    (by decide)

/-! ### Claim C6 (corrected): POST /batch validation and integrity -/

/-- Claim C6 counterexample: a checksum that IS provided but is the empty
string does not match the recomputation, yet the request is not rejected —
the JS truthiness guard if (checksum) skips verification — and an entity is
created. This refutes the claim that every provided non-matching checksum
yields a 400-class rejection with no entities created. -/
theorem claim_C6_counterexample :
    (⟨some [⟨"q1", "t1", "create", { TaskData.empty with title := some "hello" }, 0, 0, none⟩],
      some 1, some ""⟩ : BatchRequest).checksum = some "" ∧
    calculateChecksumRoute
      [⟨"q1", "t1", "create", { TaskData.empty with title := some "hello" }, 0, 0, none⟩] ≠ "" ∧
    (postBatch 5
      ⟨some [⟨"q1", "t1", "create", { TaskData.empty with title := some "hello" }, 0, 0, none⟩],
       some 1, some ""⟩
      ⟨[], [], 0⟩).1.isBadRequest = false ∧
    (postBatch 5
      ⟨some [⟨"q1", "t1", "create", { TaskData.empty with title := some "hello" }, 0, 0, none⟩],
       some 1, some ""⟩
      ⟨[], [], 0⟩).2.tasks ≠ [] := by
  exact ⟨rfl, by decide, rfl, by decide⟩

/-- Claim C6 as amended: a missing, non-array or empty items field, or a
missing client_timestamp, is rejected with a 400-class error before any
item is processed; and when a NON-EMPTY checksum is provided that does not
match the server-side recomputation, the whole request is rejected with the
400-class integrity error and the server state is unchanged. -/
theorem claim_C6 (now : Nat) (req : BatchRequest) (st : ServerState) :
    (req.items = none →
      postBatch now req st =
        (.badRequest "Invalid batch request - items array is required", st)) ∧
    (req.items = some [] →
      postBatch now req st =
        (.badRequest "Invalid batch request - items array is required", st)) ∧
    (∀ items, req.items = some items → items ≠ [] → req.client_timestamp = none →
      postBatch now req st = (.badRequest "Client timestamp is required", st)) ∧
    (∀ items c, req.items = some items → items ≠ [] → req.client_timestamp.isSome = true →
      req.checksum = some c → c ≠ "" → calculateChecksumRoute items ≠ c →
      postBatch now req st =
        (.badRequest "Batch integrity check failed - checksum mismatch", st)) := by
  refine ⟨?_, ?_, ?_, ?_⟩
  · intro h
    simp [postBatch, h]
  · intro h
    simp [postBatch, h]
  · intro items hitems hne hts
    simp [postBatch, hitems, hts, List.isEmpty_iff, hne]
  · intro items c hitems hne hts hck hcne hmis
    have hns : req.client_timestamp.isNone = false := by
      cases h : req.client_timestamp with
      | none => rw [h] at hts; cases hts
      | some v => rfl
    simp [postBatch, hitems, hck, List.isEmpty_iff, hne, hns, hcne, hmis]

/-- Claim C6 witness: a concrete malformed request and a concrete wrong
non-empty checksum, both rejected with the state unchanged. -/
theorem claim_C6_witness :
    postBatch 5 (⟨none, some 1, none⟩ : BatchRequest) (⟨[], [], 0⟩ : ServerState) =
      (.badRequest "Invalid batch request - items array is required", ⟨[], [], 0⟩) ∧
    postBatch 5
      (⟨some [⟨"q1", "t1", "create", TaskData.empty, 0, 0, none⟩], some 1, some "nope"⟩ :
        BatchRequest) (⟨[], [], 0⟩ : ServerState) =
      (.badRequest "Batch integrity check failed - checksum mismatch", ⟨[], [], 0⟩) := by
  refine ⟨(claim_C6 5 ⟨none, some 1, none⟩ ⟨[], [], 0⟩).1 rfl, ?_⟩
  exact (claim_C6 5 _ _).2.2.2 [⟨"q1", "t1", "create", TaskData.empty, 0, 0, none⟩] "nope"
    rfl (by decide) rfl rfl (by decide) (by decide)

/-! ### Claim C4: a success outcome clears every queue row of the task -/

/-- The effect of updateSyncStatus with status 'synced', spelled out. -/
theorem updateSyncStatus_synced (now : Nat) (taskId : String)
    (serverData : Option TaskData) (st : ClientState) :
    SyncService.updateSyncStatus now taskId "synced" serverData st =
      { st with
        tasks := st.tasks.map (fun t =>
          if t.id == taskId then
            { t with sync_status := "synced", last_synced_at := some now,
                     server_id :=
                       match (match serverData with
                         | some d => jsOrNoneStr d.server_id
                         | none => none) with
                       | some s => some s
                       | none => t.server_id }
          else t),
        sync_queue := st.sync_queue.filter (fun q => !(q.task_id == taskId)) } := by
  rfl

/-- Claim C4: updateSyncStatus with status 'synced' deletes every
sync_queue row whose task_id equals the acknowledged task — and only those
— and marks the task synced with last_synced_at set, setting server_id when
the outcome carries a truthy one. -/
theorem claim_C4 (now : Nat) (taskId : String) (serverData : Option TaskData)
    (st : ClientState) :
    (∀ q ∈ (SyncService.updateSyncStatus now taskId "synced" serverData st).sync_queue,
        q.task_id ≠ taskId) ∧
    (∀ q ∈ st.sync_queue, q.task_id ≠ taskId →
        q ∈ (SyncService.updateSyncStatus now taskId "synced" serverData st).sync_queue) ∧
    (∀ t ∈ st.tasks, t.id = taskId →
        ∃ u ∈ (SyncService.updateSyncStatus now taskId "synced" serverData st).tasks,
          u.id = taskId ∧ u.sync_status = "synced" ∧ u.last_synced_at = some now ∧
          ∀ d s, serverData = some d → d.server_id = some s → s ≠ "" →
            u.server_id = some s) := by
  rw [updateSyncStatus_synced]
  refine ⟨?_, ?_, ?_⟩
  · intro q hq
    rw [List.mem_filter] at hq
    simpa using hq.2
  · intro q hq hne
    rw [List.mem_filter]
    exact ⟨hq, by simpa using hne⟩
  · intro t ht hid
    refine ⟨_, List.mem_map_of_mem _ ht, ?_, ?_, ?_, ?_⟩
    · simp [hid]
    · simp [hid]
    · simp [hid]
    · intro d s hd hs hsne
      subst hd
      simp [hid, jsOrNoneStr, hs, hsne]

/-- Claim C4 witness: concrete state where a second, still-pending queue
row of the same task is also removed and the server id is recorded. -/
theorem claim_C4_witness :
    (∀ q ∈ (SyncService.updateSyncStatus 9 "t1" "synced"
        (some { TaskData.empty with server_id := some "srv-7" })
        (⟨[⟨"t1", "a", "", false, 0, 1, false, "in-progress", none, none⟩],
          [⟨"q1", "t1", "create", TaskData.empty, 0, 0, none⟩,
           ⟨"q2", "t1", "update", TaskData.empty, 1, 0, none⟩,
           ⟨"q3", "t2", "update", TaskData.empty, 2, 0, none⟩], [], 0⟩ : ClientState)).sync_queue,
       q.task_id ≠ "t1") ∧
    (∃ u ∈ (SyncService.updateSyncStatus 9 "t1" "synced"
        (some { TaskData.empty with server_id := some "srv-7" })
        (⟨[⟨"t1", "a", "", false, 0, 1, false, "in-progress", none, none⟩],
          [⟨"q1", "t1", "create", TaskData.empty, 0, 0, none⟩,
           ⟨"q2", "t1", "update", TaskData.empty, 1, 0, none⟩,
           ⟨"q3", "t2", "update", TaskData.empty, 2, 0, none⟩], [], 0⟩ : ClientState)).tasks,
       u.id = "t1" ∧ u.sync_status = "synced" ∧ u.last_synced_at = some 9 ∧
       ∀ d s, (some { TaskData.empty with server_id := some "srv-7" } : Option TaskData) = some d →
         d.server_id = some s → s ≠ "" → u.server_id = some s) := by
  have h := claim_C4 9 "t1" (some { TaskData.empty with server_id := some "srv-7" })
    ⟨[⟨"t1", "a", "", false, 0, 1, false, "in-progress", none, none⟩],
     [⟨"q1", "t1", "create", TaskData.empty, 0, 0, none⟩,
      ⟨"q2", "t1", "update", TaskData.empty, 1, 0, none⟩,
      ⟨"q3", "t2", "update", TaskData.empty, 2, 0, none⟩], [], 0⟩
  exact ⟨h.1, h.2.2 ⟨"t1", "a", "", false, 0, 1, false, "in-progress", none, none⟩
    (by decide) rfl⟩

/-! ### Claim C7: update of an absent entity degrades to create -/

/-- Claim C7: an update item whose task_id matches no live (non-deleted)
server entity is handled as a create — a new entity built from the payload
is inserted, the outcome is success carrying the newly assigned identity,
never an error. -/
theorem claim_C7 (now : Nat) (item : SyncQueueItem) (st : ServerState)
    (habs : ∀ t ∈ st.tasks, t.id = item.task_id → t.is_deleted = true) :
    (handleBatchUpdate now item st).1.status = "success" ∧
    (handleBatchUpdate now item st).1.error = none ∧
    (handleBatchUpdate now item st).1.server_id = some (uuidString st.nextId) ∧
    ∃ t ∈ (handleBatchUpdate now item st).2.tasks,
      t.id = uuidString st.nextId ∧ t.title = item.data.title.getD "" ∧
      t.created_at = now ∧ t.is_deleted = false ∧ t.sync_status = "pending" := by
  have hfind : st.tasks.find? (fun t => t.id == item.task_id && !t.is_deleted) = none := by
    rw [List.find?_eq_none]
    intro t ht
    by_cases hid : t.id = item.task_id
    · simp [hid, habs t ht hid]
    · simp [hid]
  have hget : TaskService.getTask item.task_id st = none := by
    simp [TaskService.getTask, hfind]
  refine ⟨?_, ?_, ?_, ?_⟩
  · simp [handleBatchUpdate, hget]
  · simp [handleBatchUpdate, hget]
  · simp [handleBatchUpdate, hget, TaskService.createTask]
  · simp only [handleBatchUpdate, hget, TaskService.createTask, TaskService.addToSyncQueue]
    refine ⟨_, List.mem_append_right _ (List.mem_singleton_self _), rfl, rfl, rfl, rfl, rfl⟩

/-- Claim C7 witness: a concrete update whose target was soft-deleted on
the server is recreated with a fresh identity. -/
theorem claim_C7_witness :
    (handleBatchUpdate 50
      (⟨"q2", "t1", "update",
        { TaskData.empty with title := some "new", updated_at := some 5 }, 0, 0, none⟩ :
        SyncQueueItem)
      (⟨[⟨"t1", "old", "", false, 0, 10, true, "pending", none, none⟩], [], 4⟩ :
        ServerState)).1.status = "success" ∧
    (handleBatchUpdate 50
      (⟨"q2", "t1", "update",
        { TaskData.empty with title := some "new", updated_at := some 5 }, 0, 0, none⟩ :
        SyncQueueItem)
      (⟨[⟨"t1", "old", "", false, 0, 10, true, "pending", none, none⟩], [], 4⟩ :
        ServerState)).1.server_id = some (uuidString 4) := by
  have h := claim_C7 50
    ⟨"q2", "t1", "update",
      { TaskData.empty with title := some "new", updated_at := some 5 }, 0, 0, none⟩
    ⟨[⟨"t1", "old", "", false, 0, 10, true, "pending", none, none⟩], [], 4⟩
    (by decide)
  exact ⟨h.1, h.2.2.1⟩

/-! ### Claim C1: three consecutive failures evict to the dead letter queue -/

/-- The effect of handleSyncError below the retry maximum, spelled out. -/
theorem handleSyncError_low (now : Nat) (item : SyncQueueItem) (err : String)
    (st : ClientState) (h : item.retry_count + 1 < 3) :
    SyncService.handleSyncError now item err st =
      { tasks := st.tasks.map (fun t =>
          if t.id == item.task_id then { t with sync_status := "error" } else t),
        sync_queue := st.sync_queue.map (fun q =>
          if q.id == item.id then
            { q with retry_count := item.retry_count + 1, error_message := some err }
          else q),
        dead_letter := st.dead_letter,
        nextId := st.nextId } := by
  have hn : ¬ 3 ≤ item.retry_count + 1 := Nat.not_le.mpr h
  simp [SyncService.handleSyncError, hn]

/-- The effect of handleSyncError at the retry maximum, spelled out. -/
theorem handleSyncError_max (now : Nat) (item : SyncQueueItem) (err : String)
    (st : ClientState) (h : 3 ≤ item.retry_count + 1) :
    SyncService.handleSyncError now item err st =
      { tasks := st.tasks.map (fun t =>
          if t.id == item.task_id then { t with sync_status := "failed" } else t),
        sync_queue := st.sync_queue.filter (fun q => !(q.id == item.id)),
        dead_letter := st.dead_letter ++
          [⟨uuidString st.nextId, item.id, item.task_id, item.operation,
            TaskData.stringify item.data, err, item.retry_count, now⟩],
        nextId := st.nextId + 1 } := by
  simp [SyncService.handleSyncError, SyncService.moveToDeadLetterQueue, h]

/-- Mapping id-preserving functions over the tasks table keeps a row with
the given id present. -/
theorem exists_id_map_tasks (l : List Task) (tid : String) (f : Task → Task)
    (hf : ∀ t, (f t).id = t.id) (h : ∃ t ∈ l, t.id = tid) :
    ∃ t ∈ l.map f, t.id = tid := by
  obtain ⟨t, ht, hid⟩ := h
  exact ⟨f t, List.mem_map_of_mem f ht, by rw [hf t, hid]⟩

/-- Claim C1: starting from a queue entry with retry count 0, three
consecutive failed attempts — the entry refetched with its incremented
retry count between attempts, the terminal transition firing when the
incremented count reaches 3 — leave the entry gone from the sync queue, a
dead-letter record referencing the original entry id and carrying the final
error message, and the owning task marked 'failed'. -/
theorem claim_C1 (now1 now2 now3 : Nat) (err1 err2 err3 : String)
    (st : ClientState) (e : SyncQueueItem)
    (he : e ∈ st.sync_queue) (hr : e.retry_count = 0)
    (htask : ∃ t ∈ st.tasks, t.id = e.task_id) :
    ({ e with retry_count := 1, error_message := some err1 } : SyncQueueItem) ∈
        (SyncService.handleSyncError now1 e err1 st).sync_queue ∧
    ({ e with retry_count := 2, error_message := some err2 } : SyncQueueItem) ∈
        (SyncService.handleSyncError now2 { e with retry_count := 1, error_message := some err1 }
          err2 (SyncService.handleSyncError now1 e err1 st)).sync_queue ∧
    (∀ q ∈ (SyncService.handleSyncError now3
          { e with retry_count := 2, error_message := some err2 } err3
          (SyncService.handleSyncError now2
            { e with retry_count := 1, error_message := some err1 } err2
            (SyncService.handleSyncError now1 e err1 st))).sync_queue,
        q.id ≠ e.id) ∧
    (∃ d ∈ (SyncService.handleSyncError now3
          { e with retry_count := 2, error_message := some err2 } err3
          (SyncService.handleSyncError now2
            { e with retry_count := 1, error_message := some err1 } err2
            (SyncService.handleSyncError now1 e err1 st))).dead_letter,
        d.original_queue_id = e.id ∧ d.task_id = e.task_id ∧ d.error_message = err3) ∧
    (∃ t ∈ (SyncService.handleSyncError now3
          { e with retry_count := 2, error_message := some err2 } err3
          (SyncService.handleSyncError now2
            { e with retry_count := 1, error_message := some err1 } err2
            (SyncService.handleSyncError now1 e err1 st))).tasks,
        t.id = e.task_id ∧ t.sync_status = "failed") := by
  have h1 := handleSyncError_low now1 e err1 st (by omega)
  have h2 := handleSyncError_low now2
    { e with retry_count := 1, error_message := some err1 } err2
    (SyncService.handleSyncError now1 e err1 st) (by simp)
  have h3 := handleSyncError_max now3
    { e with retry_count := 2, error_message := some err2 } err3
    (SyncService.handleSyncError now2
      { e with retry_count := 1, error_message := some err1 } err2
      (SyncService.handleSyncError now1 e err1 st)) (by simp)
  have ha : ({ e with retry_count := 1, error_message := some err1 } : SyncQueueItem) ∈
      (SyncService.handleSyncError now1 e err1 st).sync_queue := by
    rw [h1]
    have := List.mem_map_of_mem
      (fun q => if q.id == e.id then
        { q with retry_count := e.retry_count + 1, error_message := some err1 } else q) he
    simpa [hr] using this
  have hb : ({ e with retry_count := 2, error_message := some err2 } : SyncQueueItem) ∈
      (SyncService.handleSyncError now2
        { e with retry_count := 1, error_message := some err1 } err2
        (SyncService.handleSyncError now1 e err1 st)).sync_queue := by
    rw [h2]
    have := List.mem_map_of_mem
      (fun q => if q.id == e.id then
        { q with retry_count := 1 + 1, error_message := some err2 } else q) ha
    simpa using this
  refine ⟨ha, hb, ?_, ?_, ?_⟩
  · intro q hq
    rw [h3] at hq
    rw [List.mem_filter] at hq
    simpa using hq.2
  · rw [h3]
    refine ⟨_, List.mem_append_right _ (List.mem_singleton_self _), rfl, rfl, rfl⟩
  · rw [h3, h2, h1]
    have hex1 : ∃ t ∈ (SyncService.handleSyncError now1 e err1 st).tasks,
        t.id = e.task_id := by
      rw [h1]
      refine exists_id_map_tasks _ _ _ ?_ htask
      intro t
      by_cases hc : t.id == e.task_id <;> simp [hc]
    have hex2 : ∃ t ∈ (SyncService.handleSyncError now2
        { e with retry_count := 1, error_message := some err1 } err2
        (SyncService.handleSyncError now1 e err1 st)).tasks, t.id = e.task_id := by
      rw [h2]
      refine exists_id_map_tasks _ _ _ ?_ hex1
      intro t
      by_cases hc : t.id == e.task_id <;> simp [hc]
    rw [h2, h1] at hex2
    obtain ⟨t2, ht2, hid2⟩ := hex2
    refine ⟨_, List.mem_map_of_mem _ ht2, ?_⟩
    simp [hid2]

/-- Claim C1 witness: a concrete entry run through three concrete failed
attempts ends evicted, dead-lettered with the final error, its task failed. -/
theorem claim_C1_witness :
    (∀ q ∈ (SyncService.handleSyncError 3
          { (⟨"q1", "t1", "create", TaskData.empty, 0, 0, none⟩ : SyncQueueItem) with
            retry_count := 2, error_message := some "err2" } "err3"
          (SyncService.handleSyncError 2
            { (⟨"q1", "t1", "create", TaskData.empty, 0, 0, none⟩ : SyncQueueItem) with
              retry_count := 1, error_message := some "err1" } "err2"
            (SyncService.handleSyncError 1
              (⟨"q1", "t1", "create", TaskData.empty, 0, 0, none⟩ : SyncQueueItem) "err1"
              (⟨[⟨"t1", "a", "", false, 0, 1, false, "pending", none, none⟩],
                [⟨"q1", "t1", "create", TaskData.empty, 0, 0, none⟩], [], 0⟩ :
                ClientState)))).sync_queue,
        q.id ≠ "q1") ∧
    (∃ d ∈ (SyncService.handleSyncError 3
          { (⟨"q1", "t1", "create", TaskData.empty, 0, 0, none⟩ : SyncQueueItem) with
            retry_count := 2, error_message := some "err2" } "err3"
          (SyncService.handleSyncError 2
            { (⟨"q1", "t1", "create", TaskData.empty, 0, 0, none⟩ : SyncQueueItem) with
              retry_count := 1, error_message := some "err1" } "err2"
            (SyncService.handleSyncError 1
              (⟨"q1", "t1", "create", TaskData.empty, 0, 0, none⟩ : SyncQueueItem) "err1"
              (⟨[⟨"t1", "a", "", false, 0, 1, false, "pending", none, none⟩],
                [⟨"q1", "t1", "create", TaskData.empty, 0, 0, none⟩], [], 0⟩ :
                ClientState)))).dead_letter,
        d.original_queue_id = "q1" ∧ d.task_id = "t1" ∧ d.error_message = "err3") ∧
    (∃ t ∈ (SyncService.handleSyncError 3
          { (⟨"q1", "t1", "create", TaskData.empty, 0, 0, none⟩ : SyncQueueItem) with
            retry_count := 2, error_message := some "err2" } "err3"
          (SyncService.handleSyncError 2
            { (⟨"q1", "t1", "create", TaskData.empty, 0, 0, none⟩ : SyncQueueItem) with
              retry_count := 1, error_message := some "err1" } "err2"
            (SyncService.handleSyncError 1
              (⟨"q1", "t1", "create", TaskData.empty, 0, 0, none⟩ : SyncQueueItem) "err1"
              (⟨[⟨"t1", "a", "", false, 0, 1, false, "pending", none, none⟩],
                [⟨"q1", "t1", "create", TaskData.empty, 0, 0, none⟩], [], 0⟩ :
                ClientState)))).tasks,
        t.id = "t1" ∧ t.sync_status = "failed") := by
  have h := claim_C1 1 2 3 "err1" "err2" "err3"
    ⟨[⟨"t1", "a", "", false, 0, 1, false, "pending", none, none⟩],
     [⟨"q1", "t1", "create", TaskData.empty, 0, 0, none⟩], [], 0⟩
    ⟨"q1", "t1", "create", TaskData.empty, 0, 0, none⟩
    (by decide) rfl
    ⟨⟨"t1", "a", "", false, 0, 1, false, "pending", none, none⟩, by decide, rfl⟩
  exact ⟨h.2.2.1, h.2.2.2.1, h.2.2.2.2⟩

/-! ### Claim C2: last-write-wins conflict resolution, ties to the client -/

/-- The rows written by updateTask when the entity is found, spelled out. -/
theorem updateTask_tasks (now : Nat) (id : String) (updates : TaskData)
    (st : ServerState) (ex : Task) (hex : TaskService.getTask id st = some ex) :
    (TaskService.updateTask now id updates st).2.tasks
      = st.tasks.map (fun r =>
          if r.id == id && !r.is_deleted then
            { r with
              title := (TaskService.mergeTask ex updates now).title,
              description := (TaskService.mergeTask ex updates now).description,
              completed := (TaskService.mergeTask ex updates now).completed,
              updated_at := (TaskService.mergeTask ex updates now).updated_at,
              sync_status := (TaskService.mergeTask ex updates now).sync_status,
              server_id := jsOrNoneStr (TaskService.mergeTask ex updates now).server_id,
              last_synced_at := (TaskService.mergeTask ex updates now).last_synced_at }
          else r) := by
  simp [TaskService.updateTask, hex, TaskService.addToSyncQueue]

/-- Claim C2: for an update item whose entity exists on the server, a
strictly newer server timestamp preserves the server version unchanged (no
write at all) and returns it as the resolved data; otherwise — ties
included — the client's update is applied to the stored row and the merged
record is returned; both outcomes carry status 'success'. -/
theorem claim_C2 (now tc : Nat) (item : SyncQueueItem) (st : ServerState) (ex : Task)
    (hex : TaskService.getTask item.task_id st = some ex)
    (htc : item.data.updated_at = some tc) :
    (tc < ex.updated_at →
       handleBatchUpdate now item st =
         ({ client_id := item.task_id, server_id := some (jsOrStr ex.server_id ex.id),
            status := "success", resolved_data := some ex.toData, error := none }, st)) ∧
    (ex.updated_at ≤ tc →
       (handleBatchUpdate now item st).1.status = "success" ∧
       (handleBatchUpdate now item st).1.resolved_data
          = some (TaskService.mergeTask ex item.data now).toData ∧
       (∀ s, item.data.title = some s → (TaskService.mergeTask ex item.data now).title = s) ∧
       (∀ b, item.data.completed = some b →
          (TaskService.mergeTask ex item.data now).completed = b) ∧
       (TaskService.mergeTask ex item.data now).updated_at = now ∧
       ∃ u ∈ (handleBatchUpdate now item st).2.tasks,
         u.id = item.task_id ∧
         u.title = (TaskService.mergeTask ex item.data now).title ∧
         u.completed = (TaskService.mergeTask ex item.data now).completed ∧
         u.updated_at = now ∧ u.sync_status = "pending") := by
  constructor
  · intro hlt
    simp [handleBatchUpdate, hex, htc, hlt]
  · intro hle
    have hnlt : ¬ (tc < ex.updated_at) := Nat.not_lt.mpr hle
    obtain ⟨raw, hraw, hmap⟩ : ∃ raw,
        st.tasks.find? (fun t => t.id == item.task_id && !t.is_deleted) = some raw ∧
        TaskService.mapRowToTask raw = ex := by
      unfold TaskService.getTask at hex
      cases hfind : st.tasks.find? (fun t => t.id == item.task_id && !t.is_deleted) with
      | none => rw [hfind] at hex; cases hex
      | some raw =>
          rw [hfind] at hex
          exact ⟨raw, rfl, by simpa using hex⟩
    have hrawmem : raw ∈ st.tasks := List.mem_of_find?_eq_some hraw
    have hrawp := List.find?_some hraw
    simp only [Bool.and_eq_true, beq_iff_eq, Bool.not_eq_true'] at hrawp
    have hrawid : raw.id = item.task_id := hrawp.1
    have hrawdel : raw.is_deleted = false := hrawp.2
    have hrawpb : (raw.id == item.task_id && !raw.is_deleted) = true := by
      simp [hrawid, hrawdel]
    have hfst : (handleBatchUpdate now item st).1 =
        { client_id := item.task_id,
          server_id := some (jsOrStr (TaskService.mergeTask ex item.data now).server_id
                              (TaskService.mergeTask ex item.data now).id),
          status := "success",
          resolved_data := some (TaskService.mergeTask ex item.data now).toData,
          error := none } := by
      simp [handleBatchUpdate, hex, htc, hnlt, TaskService.updateTask]
    have hsnd : (handleBatchUpdate now item st).2 =
        (TaskService.updateTask now item.task_id item.data st).2 := by
      simp [handleBatchUpdate, hex, htc, hnlt]
    refine ⟨by rw [hfst], by rw [hfst], ?_, ?_, rfl, ?_⟩
    · intro s hs; simp [TaskService.mergeTask, hs]
    · intro b hb; simp [TaskService.mergeTask, hb]
    · rw [hsnd, updateTask_tasks now item.task_id item.data st ex hex]
      refine ⟨_, List.mem_map_of_mem _ hrawmem, ?_⟩
      simp [hrawpb, hrawid, hrawdel, TaskService.mergeTask]

/-- Claim C2 witness: a server entity newer than the incoming update is
preserved unchanged, and a tied timestamp lets the client's update through. -/
theorem claim_C2_witness :
    (handleBatchUpdate 50
        (⟨"q2", "t1", "update",
          { TaskData.empty with title := some "new", updated_at := some 5 }, 0, 0, none⟩ :
          SyncQueueItem)
        (⟨[⟨"t1", "old", "", false, 0, 10, false, "synced", none, none⟩], [], 7⟩ : ServerState) =
      ({ client_id := "t1", server_id := some "t1", status := "success",
         resolved_data := some
           (⟨"t1", "old", "", false, 0, 10, false, "synced", none, none⟩ : Task).toData,
         error := none },
       ⟨[⟨"t1", "old", "", false, 0, 10, false, "synced", none, none⟩], [], 7⟩)) ∧
    ((handleBatchUpdate 50
        (⟨"q2", "t1", "update",
          { TaskData.empty with title := some "new", updated_at := some 10 }, 0, 0, none⟩ :
          SyncQueueItem)
        (⟨[⟨"t1", "old", "", false, 0, 10, false, "synced", none, none⟩], [], 7⟩ :
          ServerState)).1.status = "success" ∧
     ∃ u ∈ (handleBatchUpdate 50
        (⟨"q2", "t1", "update",
          { TaskData.empty with title := some "new", updated_at := some 10 }, 0, 0, none⟩ :
          SyncQueueItem)
        (⟨[⟨"t1", "old", "", false, 0, 10, false, "synced", none, none⟩], [], 7⟩ :
          ServerState)).2.tasks,
       u.id = "t1" ∧
       u.title = (TaskService.mergeTask
         ⟨"t1", "old", "", false, 0, 10, false, "synced", none, none⟩
         { TaskData.empty with title := some "new", updated_at := some 10 } 50).title ∧
       u.completed = (TaskService.mergeTask
         ⟨"t1", "old", "", false, 0, 10, false, "synced", none, none⟩
         { TaskData.empty with title := some "new", updated_at := some 10 } 50).completed ∧
       u.updated_at = 50 ∧ u.sync_status = "pending") := by
  constructor
  · exact (claim_C2 50 5
      ⟨"q2", "t1", "update",
        { TaskData.empty with title := some "new", updated_at := some 5 }, 0, 0, none⟩
      ⟨[⟨"t1", "old", "", false, 0, 10, false, "synced", none, none⟩], [], 7⟩
      ⟨"t1", "old", "", false, 0, 10, false, "synced", none, none⟩
      (by decide) rfl).1 (by decide)
  · have h := (claim_C2 50 10
      ⟨"q2", "t1", "update",
        { TaskData.empty with title := some "new", updated_at := some 10 }, 0, 0, none⟩
      ⟨[⟨"t1", "old", "", false, 0, 10, false, "synced", none, none⟩], [], 7⟩
      ⟨"t1", "old", "", false, 0, 10, false, "synced", none, none⟩
      (by decide) rfl).2 (by decide)
    exact ⟨h.1, h.2.2.2.2.2⟩

/-! ### Claim C9: pending fetch filters retries and orders by task, time -/

/-- The codepoint order on character lists is trichotomous. -/
theorem charListLt_trichotomy (x y : List Char) :
    charListLt x y = true ∨ charListLt y x = true ∨ x = y := by
  induction x generalizing y with
  | nil =>
    cases y with
    | nil => exact Or.inr (Or.inr rfl)
    | cons d ds => exact Or.inl rfl
  | cons c cs ih =>
    cases y with
    | nil => exact Or.inr (Or.inl rfl)
    | cons d ds =>
      rcases Nat.lt_trichotomy c.toNat d.toNat with hlt | heq | hgt
      · left; simp [charListLt, hlt]
      · have hcd : c = d := Char.eq_of_val_eq (UInt32.toNat.inj heq)
        subst hcd
        rcases ih ds with h | h | h
        · left; simp [charListLt, h]
        · right; left; simp [charListLt, h]
        · right; right; rw [h]
      · right; left; simp [charListLt, hgt]

/-- The codepoint order on character lists is transitive. -/
theorem charListLt_trans (x y z : List Char)
    (h1 : charListLt x y = true) (h2 : charListLt y z = true) :
    charListLt x z = true := by
  induction x generalizing y z with
  | nil =>
    cases y with
    | nil => simp [charListLt] at h1
    | cons d ds =>
      cases z with
      | nil => simp [charListLt] at h2
      | cons e es => rfl
  | cons c cs ih =>
    cases y with
    | nil => simp [charListLt] at h1
    | cons d ds =>
      cases z with
      | nil => simp [charListLt] at h2
      | cons e es =>
        by_cases hcd : c.toNat < d.toNat
        · by_cases hde : d.toNat < e.toNat
          · have hce : c.toNat < e.toNat := Nat.lt_trans hcd hde
            simp [charListLt, hce]
          · by_cases hed : e.toNat < d.toNat
            · simp [charListLt, hde, hed] at h2
            · have hce : c.toNat < e.toNat := by omega
              simp [charListLt, hce]
        · by_cases hdc : d.toNat < c.toNat
          · simp [charListLt, hcd, hdc] at h1
          · have h1r : charListLt cs ds = true := by
              simpa [charListLt, hcd, hdc] using h1
            by_cases hde : d.toNat < e.toNat
            · have hce : c.toNat < e.toNat := by omega
              simp [charListLt, hce]
            · by_cases hed : e.toNat < d.toNat
              · simp [charListLt, hde, hed] at h2
              · have h2r : charListLt ds es = true := by
                  simpa [charListLt, hde, hed] using h2
                have hce : ¬ c.toNat < e.toNat := by omega
                have hec : ¬ e.toNat < c.toNat := by omega
                simp [charListLt, hce, hec, ih ds es h1r h2r]

/-- The ORDER BY comparison is total. -/
theorem entryLE_total (a b : SyncQueueItem) :
    SyncService.entryLE a b = true ∨ SyncService.entryLE b a = true := by
  unfold SyncService.entryLE
  rcases charListLt_trichotomy a.task_id.data b.task_id.data with h | h | h
  · left; simp [strLt, h]
  · right; simp [strLt, h]
  · have hab : a.task_id = b.task_id := by
      cases ha : a.task_id
      cases hb : b.task_id
      rw [ha, hb] at h
      simp at h
      rw [h]
    rcases Nat.le_total a.created_at b.created_at with hle | hle
    · left; simp [hab, hle]
    · right; simp [hab, hle]

/-- The ORDER BY comparison is transitive. -/
theorem entryLE_trans (a b c : SyncQueueItem)
    (h1 : SyncService.entryLE a b = true) (h2 : SyncService.entryLE b c = true) :
    SyncService.entryLE a c = true := by
  unfold SyncService.entryLE strLt at h1 h2 ⊢
  simp only [Bool.or_eq_true, Bool.and_eq_true, beq_iff_eq, decide_eq_true_eq] at h1 h2 ⊢
  rcases h1 with h1 | ⟨h1e, h1n⟩
  · rcases h2 with h2 | ⟨h2e, h2n⟩
    · exact Or.inl (charListLt_trans _ _ _ h1 h2)
    · left; rw [← h2e]; exact h1
  · rcases h2 with h2 | ⟨h2e, h2n⟩
    · left; rw [h1e]; exact h2
    · exact Or.inr ⟨h1e.trans h2e, Nat.le_trans h1n h2n⟩

/-- Inserting into a list permutes to consing. -/
theorem insSorted_perm (le : SyncQueueItem → SyncQueueItem → Bool)
    (x : SyncQueueItem) (l : List SyncQueueItem) :
    (SyncService.insSorted le x l).Perm (x :: l) := by
  induction l with
  | nil => exact List.Perm.refl _
  | cons y ys ih =>
    by_cases h : le x y = true
    · simp [SyncService.insSorted, h]
    · simp only [SyncService.insSorted, h, Bool.false_eq_true, if_false]
      exact (ih.cons y).trans (List.Perm.swap x y ys)

/-- The sort is a permutation of its input. -/
theorem sortBy_perm (le : SyncQueueItem → SyncQueueItem → Bool)
    (l : List SyncQueueItem) : (SyncService.sortBy le l).Perm l := by
  induction l with
  | nil => exact List.Perm.refl _
  | cons x xs ih =>
    exact (insSorted_perm le x (SyncService.sortBy le xs)).trans (ih.cons x)

/-- Inserting into a sorted list keeps it sorted, given a total transitive
comparison. -/
theorem insSorted_pairwise (le : SyncQueueItem → SyncQueueItem → Bool)
    (htot : ∀ a b, le a b = true ∨ le b a = true)
    (htrans : ∀ a b c, le a b = true → le b c = true → le a c = true)
    (x : SyncQueueItem) (l : List SyncQueueItem)
    (h : l.Pairwise (fun a b => le a b = true)) :
    (SyncService.insSorted le x l).Pairwise (fun a b => le a b = true) := by
  induction l with
  | nil => simp [SyncService.insSorted]
  | cons y ys ih =>
    rw [List.pairwise_cons] at h
    by_cases hxy : le x y = true
    · simp only [SyncService.insSorted, hxy, if_true]
      rw [List.pairwise_cons]
      constructor
      · intro z hz
        rcases List.mem_cons.mp hz with rfl | hz2
        · exact hxy
        · exact htrans x y z hxy (h.1 z hz2)
      · rw [List.pairwise_cons]
        exact h
    · simp only [SyncService.insSorted, hxy, Bool.false_eq_true, if_false]
      rw [List.pairwise_cons]
      constructor
      · intro z hz
        rcases List.mem_cons.mp ((insSorted_perm le x ys).mem_iff.mp hz) with rfl | hz3
        · exact (htot _ y).resolve_left hxy
        · exact h.1 z hz3
      · exact ih h.2

/-- The sort output is pairwise ordered, given a total transitive
comparison. -/
theorem sortBy_pairwise (le : SyncQueueItem → SyncQueueItem → Bool)
    (htot : ∀ a b, le a b = true ∨ le b a = true)
    (htrans : ∀ a b c, le a b = true → le b c = true → le a c = true)
    (l : List SyncQueueItem) :
    (SyncService.sortBy le l).Pairwise (fun a b => le a b = true) := by
  induction l with
  | nil => simp [SyncService.sortBy]
  | cons x xs ih => exact insSorted_pairwise le htot htrans x _ ih

/-- Claim C9: getSyncQueueItems returns exactly the sync_queue entries with
retry count strictly below 3 — a permutation of the filtered table, with
membership preserved — ordered first by owning task id and then by creation
time ascending. -/
theorem claim_C9 (st : ClientState) :
    (SyncService.getSyncQueueItems st).Perm
        (st.sync_queue.filter (fun e => e.retry_count < 3)) ∧
    List.Pairwise (fun a b => SyncService.entryLE a b = true)
        (SyncService.getSyncQueueItems st) ∧
    (∀ e, e ∈ SyncService.getSyncQueueItems st ↔
        e ∈ st.sync_queue ∧ e.retry_count < 3) := by
  have hperm := sortBy_perm SyncService.entryLE
    (st.sync_queue.filter (fun e => e.retry_count < 3))
  refine ⟨hperm, ?_, ?_⟩
  · exact sortBy_pairwise SyncService.entryLE entryLE_total entryLE_trans _
  · intro e
    rw [SyncService.getSyncQueueItems, (sortBy_perm _ _).mem_iff, List.mem_filter]
    simp

/-- Claim C9 witness: on a concrete queue, an entry with retry count 2 is
returned while the entry with retry count 3 is excluded. -/
theorem claim_C9_witness :
    ((⟨"qb", "tA", "create", TaskData.empty, 9, 2, none⟩ : SyncQueueItem) ∈
      SyncService.getSyncQueueItems
        (⟨[], [⟨"qa", "tB", "create", TaskData.empty, 5, 0, none⟩,
               ⟨"qb", "tA", "create", TaskData.empty, 9, 2, none⟩,
               ⟨"qc", "tA", "create", TaskData.empty, 3, 3, none⟩], [], 0⟩ : ClientState)) ∧
    ¬ ((⟨"qc", "tA", "create", TaskData.empty, 3, 3, none⟩ : SyncQueueItem) ∈
      SyncService.getSyncQueueItems
        (⟨[], [⟨"qa", "tB", "create", TaskData.empty, 5, 0, none⟩,
               ⟨"qb", "tA", "create", TaskData.empty, 9, 2, none⟩,
               ⟨"qc", "tA", "create", TaskData.empty, 3, 3, none⟩], [], 0⟩ : ClientState)) := by
  constructor
  · exact ((claim_C9 _).2.2 _).mpr ⟨by decide, by decide⟩
  · intro hmem
    have := ((claim_C9 _).2.2 _).mp hmem
    exact absurd this.2 (by decide)

/-! ### Claim C5: checksum determinism and tamper sensitivity -/

/-- String concatenation cancels on the left. -/
theorem string_append_cancel_left (a b c : String) (h : a ++ b = a ++ c) : b = c := by
  have hd : a.data ++ b.data = a.data ++ c.data := congrArg String.data h
  exact congrArg String.mk (List.append_cancel_left hd)

/-- String concatenation cancels on the right. -/
theorem string_append_cancel_right (a b c : String) (h : a ++ c = b ++ c) : a = b := by
  have hd : a.data ++ c.data = b.data ++ c.data := congrArg String.data h
  exact congrArg String.mk (List.append_cancel_right hd)

/-- Replacing one fragment of the joined pre-image by a different fragment
changes the joined string: the join is cancellative around the replaced
position. -/
theorem joinSep_set_ne (l : List String) (i : Nat) (s2 : String) (hi : i < l.length)
    (hne : s2 ≠ l.get ⟨i, hi⟩) :
    joinSep "|" (l.set i s2) ≠ joinSep "|" l := by
  induction l generalizing i with
  | nil => cases hi
  | cons a t ih =>
    cases i with
    | zero =>
      cases t with
      | nil =>
        simpa [joinSep] using hne
      | cons b t2 =>
        simp only [List.set_cons_zero, joinSep]
        intro heq
        have h1 := string_append_cancel_right _ _ _ heq
        have h2 := string_append_cancel_right _ _ _ h1
        exact hne h2
    | succ j =>
      have hj : j < t.length := by simpa using hi
      cases t with
      | nil => cases hj
      | cons b t2 =>
        have hlen : (b :: t2).set j s2 ≠ [] := by
          intro hnil
          have := congrArg List.length hnil
          simp at this
        obtain ⟨c, cs, hX⟩ := List.exists_cons_of_ne_nil hlen
        have hget : (a :: b :: t2).get ⟨j + 1, hi⟩ = (b :: t2).get ⟨j, hj⟩ := rfl
        rw [hget] at hne
        simp only [List.set_cons_succ, hX, joinSep]
        intro heq
        have h2 : joinSep "|" (c :: cs) = joinSep "|" (b :: t2) :=
          string_append_cancel_left _ _ _ heq
        rw [← hX] at h2
        exact ih j hj hne h2

/-- Two queue items with the same id and operation but different serialised
data have different checksum fragments. -/
theorem checksumItemString_ne (e1 e2 : SyncQueueItem)
    (hid : e2.id = e1.id) (hop : e2.operation = e1.operation)
    (hdata : TaskData.stringify e2.data ≠ TaskData.stringify e1.data) :
    checksumItemString e2 ≠ checksumItemString e1 := by
  unfold checksumItemString
  rw [hid, hop]
  intro heq
  exact hdata (string_append_cancel_left _ _ _ heq)

/-- Absence of a SHA-256 collision between one concrete pair of pre-images.
The spec calls the hash collision-resistant; for a concrete function this
enters as a hypothesis on the pair at hand (it is discharged by evaluation
at any concrete instance), never as an axiom. -/
def HashesDistinct (a b : String) : Prop := a ≠ b → sha256hex a ≠ sha256hex b

/-- Claim C5: the checksum is the SHA-256 hex digest of the dash-and-pipe
serialisation of the ordered items; recomputing it over the same ordered
item list on the sending or the receiving side yields the identical
fingerprint, and altering any one item's data (its serialised snapshot)
changes the fingerprint whenever SHA-256 does not collide on the two
resulting pre-images. -/
theorem claim_C5 :
    (∀ items : List SyncQueueItem, calculateChecksumRoute items = calculateChecksum items) ∧
    (∀ items1 items2 : List SyncQueueItem, items1 = items2 →
        calculateChecksum items1 = calculateChecksum items2) ∧
    (∀ (items : List SyncQueueItem) (i : Nat) (hi : i < items.length)
        (e2 : SyncQueueItem),
        e2.id = (items.get ⟨i, hi⟩).id →
        e2.operation = (items.get ⟨i, hi⟩).operation →
        TaskData.stringify e2.data ≠ TaskData.stringify (items.get ⟨i, hi⟩).data →
        HashesDistinct (checksumDataString (items.set i e2)) (checksumDataString items) →
        calculateChecksum (items.set i e2) ≠ calculateChecksum items) := by
  refine ⟨fun items => rfl, fun items1 items2 h => by rw [h], ?_⟩
  intro items i hi e2 hid hop hdata hcoll
  have hne : checksumDataString (items.set i e2) ≠ checksumDataString items := by
    unfold checksumDataString
    rw [List.map_set]
    have hi2 : i < (items.map checksumItemString).length := by simpa using hi
    apply joinSep_set_ne _ _ _ hi2
    have hg : (items.map checksumItemString).get ⟨i, hi2⟩
        = checksumItemString (items.get ⟨i, hi⟩) := by
      simp
    rw [hg]
    exact checksumItemString_ne _ _ hid hop hdata
  exact fun heq => hcoll hne heq

/-- Claim C5 witness: a concrete pair of one-item batches differing only in
one item's data, with both digests evaluated: the cross-side recomputation
agrees and the altered data changes the fingerprint. -/
theorem claim_C5_witness :
    calculateChecksumRoute
        [⟨"q1", "t1", "create", { TaskData.empty with title := some "hello" }, 0, 0, none⟩]
      = calculateChecksum
        [⟨"q1", "t1", "create", { TaskData.empty with title := some "hello" }, 0, 0, none⟩] ∧
    calculateChecksum
        ([⟨"q1", "t1", "create", { TaskData.empty with title := some "hello" }, 0, 0, none⟩].set 0
          ⟨"q1", "t1", "create", { TaskData.empty with title := some "world" }, 0, 0, none⟩)
      ≠ calculateChecksum
        [⟨"q1", "t1", "create", { TaskData.empty with title := some "hello" }, 0, 0, none⟩] := by
  constructor
  · exact claim_C5.1 _
  · exact claim_C5.2.2
      [⟨"q1", "t1", "create", { TaskData.empty with title := some "hello" }, 0, 0, none⟩]
      0 (by decide)
      ⟨"q1", "t1", "create", { TaskData.empty with title := some "world" }, 0, 0, none⟩
      rfl rfl (by decide) (fun _ => by decide)

end Backend
